import Mathlib

set_option autoImplicit false

/-! Shallow embedding of the wind-fleet dashboard core: the map selection
controller (`ProperFleetMap`: `handleFarmClick`, `createCustomIcon`) and the
chat conversation controller (`GenieChat`: `sendMessage`,
`toggleSqlVisibility`), pure-state versions of the React components. -/

/-! ## Selection Controller (ProperFleetMap) -/

/-- Status values of a wind farm record. -/
inductive FarmStatus where
  | optimal
  | moderate
  | maintenance
deriving DecidableEq

/-- The shape of a wind-farm location record (the `WindFarm` interface).
Coordinates and other reals are modelled as exact rationals. -/
structure WindFarm where
  id : String
  name : String
  lat : ℚ
  lng : ℚ
  turbineCount : ℕ
  totalPower : ℚ
  avgWindSpeed : ℚ
  efficiency : ℕ
  status : FarmStatus
  region : String
  state : String

def txPanhandle : WindFarm :=
  { id := "tx-panhandle", name := "Texas Panhandle Wind Complex",
    lat := 35.2, lng := -101.8, turbineCount := 25, totalPower := 87.5,
    avgWindSpeed := 18.5, efficiency := 94, status := FarmStatus.optimal,
    region := "Great Plains", state := "Texas" }

def iaCorn : WindFarm :=
  { id := "ia-corn", name := "Iowa Corn Belt Wind Farm",
    lat := 42.0, lng := -93.5, turbineCount := 18, totalPower := 63.0,
    avgWindSpeed := 14.2, efficiency := 89, status := FarmStatus.optimal,
    region := "Midwest", state := "Iowa" }

def caTehachapi : WindFarm :=
  { id := "ca-tehachapi", name := "Tehachapi Pass Wind Farm",
    lat := 35.1, lng := -118.3, turbineCount := 15, totalPower := 52.5,
    avgWindSpeed := 16.8, efficiency := 92, status := FarmStatus.optimal,
    region := "California", state := "California" }

def wyMedicine : WindFarm :=
  { id := "wy-medicine", name := "Medicine Bow Wind Project",
    lat := 41.9, lng := -106.3, turbineCount := 12, totalPower := 42.0,
    avgWindSpeed := 22.3, efficiency := 96, status := FarmStatus.optimal,
    region := "Rocky Mountains", state := "Wyoming" }

def okCorridor : WindFarm :=
  { id := "ok-corridor", name := "Oklahoma Wind Corridor",
    lat := 35.5, lng := -98.5, turbineCount := 20, totalPower := 70.0,
    avgWindSpeed := 17.9, efficiency := 91, status := FarmStatus.optimal,
    region := "Great Plains", state := "Oklahoma" }

def ilPrairie : WindFarm :=
  { id := "il-prairie", name := "Illinois Prairie Wind Farm",
    lat := 40.8, lng := -89.4, turbineCount := 10, totalPower := 35.0,
    avgWindSpeed := 12.5, efficiency := 87, status := FarmStatus.moderate,
    region := "Midwest", state := "Illinois" }

/-- The hard-coded `windFarms` array of the component, in source order. -/
def windFarms : List WindFarm :=
  [txPanhandle, iaCorn, caTehachapi, wyMedicine, okCorridor, ilPrairie]

/-- Component state of `ProperFleetMap`: `selectedFarm`, `mapCenter`,
`mapZoom`. -/
structure MapState where
  selectedFarm : Option String
  mapCenter : ℚ × ℚ
  mapZoom : ℕ

/-- The overview map center hard-coded in the component (center of US). -/
def overviewCenter : ℚ × ℚ := (39.5, -98.5)

/-- The overview zoom level hard-coded in the component. -/
def overviewZoom : ℕ := 4

/-- The zoomed-in zoom level used when a farm is selected. -/
def selectedZoom : ℕ := 7

/-- Initial state of `ProperFleetMap`. -/
def initialMapState : MapState :=
  { selectedFarm := none, mapCenter := overviewCenter, mapZoom := overviewZoom }

/-- The `handleFarmClick` handler: toggles the selection and recenters the
map, exactly as in the source (both branches of the source collapse into the
equality test on the current selection). -/
def handleFarmClick (s : MapState) (farmId : String) (lat lng : ℚ) : MapState :=
  if s.selectedFarm = some farmId then
    { selectedFarm := none, mapCenter := (39.5, -98.5), mapZoom := 4 }
  else
    { selectedFarm := some farmId, mapCenter := (lat, lng), mapZoom := 7 }

/-- The visual attributes of a marker icon produced by `createCustomIcon`
that depend on its arguments: fill color, diameter, and pulse animation. -/
structure MarkerIcon where
  color : String
  size : ℕ
  pulse : Bool
deriving DecidableEq

/-- Color chosen by `createCustomIcon` from the farm status. -/
def statusColor : FarmStatus → String
  | FarmStatus.optimal => "#10b981"
  | FarmStatus.moderate => "#f59e0b"
  | FarmStatus.maintenance => "#ef4444"

/-- The `createCustomIcon` function: emphasized (40px, pulsing) when
selected, default (30px, static) otherwise. -/
def createCustomIcon (status : FarmStatus) (isSelected : Bool) : MarkerIcon :=
  { color := statusColor status,
    size := if isSelected then 40 else 30,
    pulse := isSelected }

/-- The icon the component renders for a farm marker:
`createCustomIcon(farm.status, farm.id === selectedFarm)`. -/
def markerIcon (s : MapState) (f : WindFarm) : MarkerIcon :=
  createCustomIcon f.status (decide (s.selectedFarm = some f.id))

/-- A marker click as wired in the component: the handler is always invoked
with the clicked farm record, `handleFarmClick(farm.id, farm.lat, farm.lng)`. -/
def clickFarm (s : MapState) (f : WindFarm) : MapState :=
  handleFarmClick s f.id f.lat f.lng

/-- A sequence of marker clicks. -/
def runClicks (s : MapState) (fs : List WindFarm) : MapState :=
  List.foldl clickFarm s fs

/-! ## Conversation Controller (GenieChat) -/

/-- Whitespace characters stripped by the JavaScript `trim()` on chat
input (the ASCII whitespace relevant here). -/
def jsWhitespace (c : Char) : Bool :=
  c = ' ' || c = '\t' || c = '\n' || c = '\r'

/-- The JavaScript `text.trim()` operation: strips leading and trailing
whitespace. -/
def jsTrim (s : String) : String :=
  String.mk (((s.data.dropWhile jsWhitespace).reverse.dropWhile jsWhitespace).reverse)

/-- Message sender, `'user' | 'assistant'`. -/
inductive Sender where
  | user
  | assistant
deriving DecidableEq

/-- Per-message delivery status, `'sending' | 'sent' | 'error'`. -/
inductive MsgStatus where
  | sending
  | sent
  | error
deriving DecidableEq

/-- The tabular `query_results` payload of a responder reply:
column names, optional column types, row data and row count. -/
structure QueryResults where
  columns : List String
  column_types : Option (List String)
  data : List (List String)
  row_count : ℕ
deriving DecidableEq

/-- The `Message` interface of the chat component. Timestamps are modelled
as abstract natural-number instants. -/
structure Message where
  id : String
  content : String
  sender : Sender
  timestamp : ℕ
  status : Option MsgStatus
  sql : Option String
  results : Option QueryResults
deriving DecidableEq

/-- The JSON body of a successful `/api/genie/send-message` response. -/
structure GenieResponse where
  conversation_id : String
  message_id : String
  content : String
  timestamp : ℕ
  sql_query : Option String
  query_results : Option QueryResults
deriving DecidableEq

/-- The JSON body of the outbound request issued by `sendMessage`. -/
structure OutboundRequest where
  content : String
  conversation_id : Option String
deriving DecidableEq

/-- Component state of `GenieChat`: the message list, the input field, the
`isLoading` pending-request flag, the adopted conversation id, the error
banner text, and the set of message ids whose SQL is revealed. -/
structure ChatState where
  messages : List Message
  input : String
  isLoading : Bool
  conversationId : Option String
  error : Option String
  showSqlFor : Finset String
deriving DecidableEq

/-- Greeting text of the seeded assistant message. -/
def greetingText : String :=
  "Hello! I\x27m your AI-powered Wind Fleet Assistant. I can help you analyze turbine data, predict maintenance needs, and provide insights about your fleet. What would you like to know?"

/-- The assistant greeting the message list is seeded with. -/
def greetingMessage (t0 : ℕ) : Message :=
  { id := "1", content := greetingText, sender := Sender.assistant,
    timestamp := t0, status := none, sql := none, results := none }

/-- Initial state of `GenieChat`. -/
def initialChatState (t0 : ℕ) : ChatState :=
  { messages := [greetingMessage t0], input := "", isLoading := false,
    conversationId := none, error := none, showSqlFor := ∅ }

/-- JavaScript truthiness test `!x` for a `string | null` value: true for
null and for the empty string. -/
def strNullFalsy : Option String → Bool
  | none => true
  | some s => s.isEmpty

/-- The user message appended by `sendMessage` before the request is
issued: locally assigned id, trimmed content, status `sending`. -/
def mkUserMessage (trimmed : String) (newId : String) (now : ℕ) : Message :=
  { id := newId, content := trimmed, sender := Sender.user, timestamp := now,
    status := some MsgStatus.sending, sql := none, results := none }

/-- The assistant message built from a successful response; the id falls
back to a locally generated one when `message_id` is falsy. -/
def mkAssistantMessage (data : GenieResponse) (fallbackId : String) : Message :=
  { id := if data.message_id.isEmpty then fallbackId else data.message_id,
    content := data.content, sender := Sender.assistant,
    timestamp := data.timestamp, status := none, sql := data.sql_query,
    results := data.query_results }

/-- The state after the optimistic phase of `sendMessage`: the user message
is appended with status `sending`, the input is cleared, `isLoading` is
raised and the error banner is cleared. -/
def appendPending (s : ChatState) (u : Message) : ChatState :=
  { s with
    messages := s.messages ++ [u], input := "", isLoading := true,
    error := none }

/-- The success continuation of `sendMessage`: adopt the conversation id
when none was set and the response carries a truthy one, replace the final
(just-appended user) message with a `sent` copy followed by the assistant
message, and lower `isLoading`. -/
def resolveSuccess (s : ChatState) (u : Message) (data : GenieResponse)
    (fallbackId : String) : ChatState :=
  { s with
    conversationId :=
      if strNullFalsy s.conversationId && !data.conversation_id.isEmpty then
        some data.conversation_id
      else s.conversationId,
    messages := s.messages.dropLast ++
      [{ u with status := some MsgStatus.sent },
       mkAssistantMessage data fallbackId],
    isLoading := false }

/-- The fixed user-facing failure banner text. -/
def sendFailureText : String := "Failed to send message. Please try again."

/-- The catch branch of `sendMessage`: set the error banner, replace the
final (just-appended user) message with an `error` copy, lower
`isLoading`. -/
def resolveFailure (s : ChatState) (u : Message) : ChatState :=
  { s with
    error := some sendFailureText,
    messages := s.messages.dropLast ++ [{ u with status := some MsgStatus.error }],
    isLoading := false }

/-- The whole `sendMessage` operation as one state transition. The round
trip outcome of the fetch is a parameter (`Except.error` covers transport
failures and non-ok responses); the locally generated ids and instants are
parameters too. Returns the final state and the outbound request body, if
one was issued. -/
def sendMessage (s : ChatState) (newId : String) (now : ℕ)
    (outcome : Except Unit GenieResponse) (fallbackId : String) :
    ChatState × Option OutboundRequest :=
  if (jsTrim s.input).isEmpty || s.isLoading then (s, none)
  else
    let u := mkUserMessage (jsTrim s.input) newId now
    let s1 := appendPending s u
    let req : OutboundRequest :=
      { content := u.content, conversation_id := s.conversationId }
    match outcome with
    | Except.ok data => (resolveSuccess s1 u data fallbackId, some req)
    | Except.error _ => (resolveFailure s1 u, some req)

/-- The `toggleSqlVisibility` handler: flip membership of the message id in
the reveal-set. -/
def toggleSqlVisibility (prev : Finset String) (messageId : String) : Finset String :=
  if messageId ∈ prev then prev.erase messageId else insert messageId prev

/-- User-driven events of the conversation controller. -/
inductive ChatEvent where
  | send (newId : String) (now : ℕ) (outcome : Except Unit GenieResponse) (fallbackId : String)
  | toggleSql (messageId : String)
  | setInput (text : String)

/-- Apply one event to the component state. -/
def applyEvent (s : ChatState) (e : ChatEvent) : ChatState :=
  match e with
  | ChatEvent.send newId now outcome fallbackId =>
      (sendMessage s newId now outcome fallbackId).1
  | ChatEvent.toggleSql messageId =>
      { s with showSqlFor := toggleSqlVisibility s.showSqlFor messageId }
  | ChatEvent.setInput text => { s with input := text }

/-- The successive rendered states produced by one event: a send that
passes the guard renders the optimistic state and then the resolved state;
every other event renders a single new state. -/
def eventStates (s : ChatState) (e : ChatEvent) : List ChatState :=
  match e with
  | ChatEvent.send newId now outcome fallbackId =>
      if (jsTrim s.input).isEmpty || s.isLoading then [s]
      else
        let u := mkUserMessage (jsTrim s.input) newId now
        let s1 := appendPending s u
        match outcome with
        | Except.ok data => [s1, resolveSuccess s1 u data fallbackId]
        | Except.error _ => [s1, resolveFailure s1 u]
  | e2 => [applyEvent s e2]

/-- All rendered states along a sequence of events, starting from `s`. -/
def traceFrom (s : ChatState) : List ChatEvent → List ChatState
  | [] => [s]
  | e :: rest => s :: (eventStates s e ++ traceFrom (applyEvent s e) rest)

example : jsTrim "  hi " = "hi" := by decide

example : (jsTrim "   ").isEmpty = true := by decide

/-! ## Selection Controller theorems -/

/-- The six hard-coded farm ids are pairwise distinct, so a farm record in
the set is determined by its id. -/
theorem windFarms_id_inj :
    ∀ ⦃a : WindFarm⦄, a ∈ windFarms → ∀ ⦃b : WindFarm⦄, b ∈ windFarms →
      a.id = b.id → a = b :=
  List.inj_on_of_nodup_map (by decide)

/-- Invariant tying the view to the selection: either nothing is selected
and the view is the overview, or the selected id belongs to a farm of the
set and the view is that farm's position at the zoomed-in level. -/
def MapInv (s : MapState) : Prop :=
  (s.selectedFarm = none ∧ s.mapCenter = overviewCenter ∧ s.mapZoom = overviewZoom)
  ∨ ∃ L ∈ windFarms, s.selectedFarm = some L.id
      ∧ s.mapCenter = (L.lat, L.lng) ∧ s.mapZoom = selectedZoom

theorem mapInv_click (s : MapState) (f : WindFarm) (hf : f ∈ windFarms) :
    MapInv (clickFarm s f) := by
  by_cases hsel : s.selectedFarm = some f.id
  · exact Or.inl (by simp [clickFarm, handleFarmClick, hsel, overviewCenter, overviewZoom])
  · exact Or.inr ⟨f, hf, by simp [clickFarm, handleFarmClick, hsel, selectedZoom]⟩

theorem mapInv_runClicks :
    ∀ (fs : List WindFarm) (s : MapState), MapInv s →
      (∀ f ∈ fs, f ∈ windFarms) → MapInv (runClicks s fs)
  | [], _, h, _ => h
  | f :: rest, s, _, hfs =>
      mapInv_runClicks rest (clickFarm s f)
        (mapInv_click s f (hfs f (by simp)))
        (fun g hg => hfs g (by simp [hg]))

/-- States reachable from the initial state by marker clicks on farms of
the set. -/
def ReachableMap (s : MapState) : Prop :=
  ∃ fs : List WindFarm, (∀ f ∈ fs, f ∈ windFarms) ∧ s = runClicks initialMapState fs

theorem reachable_mapInv (s : MapState) (hs : ReachableMap s) : MapInv s := by
  obtain ⟨fs, hfs, rfl⟩ := hs
  exact mapInv_runClicks fs initialMapState (Or.inl ⟨rfl, rfl, rfl⟩) hfs

/-- C4: in every state reachable by selection toggles, the view center/zoom
and the marker emphasis are a pure function of `selectedFarm`: with no
selection the view is the overview and every marker is the default 30px
non-pulsing variant; with a selection the selected id is the id of some
farm L of the set, the view is centered on L at the zoomed-in level, L's
marker is the emphasized 40px pulsing variant, and L's marker is the only
emphasized one. -/
theorem view_derived_from_selection (s : MapState) (hs : ReachableMap s) :
    (s.selectedFarm = none →
      s.mapCenter = overviewCenter ∧ s.mapZoom = overviewZoom ∧
      ∀ f ∈ windFarms, (markerIcon s f).size = 30 ∧ (markerIcon s f).pulse = false)
    ∧ (∀ L ∈ windFarms, s.selectedFarm = some L.id →
      s.mapCenter = (L.lat, L.lng) ∧ s.mapZoom = selectedZoom ∧
      (markerIcon s L).size = 40 ∧ (markerIcon s L).pulse = true ∧
      ∀ f ∈ windFarms, ((markerIcon s f).size = 40 ↔ f = L))
    ∧ (∀ i : String, s.selectedFarm = some i → ∃ L ∈ windFarms, L.id = i) := by
  have hinv := reachable_mapInv s hs
  refine ⟨?_, ?_, ?_⟩
  · intro hnone
    rcases hinv with ⟨_, hc, hz⟩ | ⟨L, _, hsel, _, _⟩
    · exact ⟨hc, hz, fun f _ => by simp [markerIcon, createCustomIcon, hnone]⟩
    · rw [hnone] at hsel
      exact absurd hsel (by simp)
  · intro L hL hsel
    rcases hinv with ⟨hn, _, _⟩ | ⟨L0, hL0, hsel0, hc, hz⟩
    · rw [hsel] at hn
      exact absurd hn (by simp)
    · have hid : L0 = L := windFarms_id_inj hL0 hL (by
        rw [hsel] at hsel0
        exact (Option.some.inj hsel0).symm)
      subst hid
      refine ⟨hc, hz, by simp [markerIcon, createCustomIcon, hsel], by simp [markerIcon, createCustomIcon, hsel], ?_⟩
      intro f hf
      constructor
      · intro hsize
        by_cases hfd : s.selectedFarm = some f.id
        · rw [hsel] at hfd
          exact (windFarms_id_inj hL0 hf (Option.some.inj hfd)).symm
        · simp [markerIcon, createCustomIcon, hfd] at hsize
      · rintro rfl
        simp [markerIcon, createCustomIcon, hsel]
  · intro i hi
    rcases hinv with ⟨hn, _, _⟩ | ⟨L0, hL0, hsel0, _, _⟩
    · rw [hi] at hn
      exact absurd hn (by simp)
    · rw [hi] at hsel0
      exact ⟨L0, hL0, (Option.some.inj hsel0).symm⟩

theorem view_derived_from_selection_witness :
    (clickFarm initialMapState txPanhandle).mapCenter = (txPanhandle.lat, txPanhandle.lng)
    ∧ (clickFarm initialMapState txPanhandle).mapZoom = selectedZoom
    ∧ (markerIcon (clickFarm initialMapState txPanhandle) txPanhandle).size = 40 := by
  have h := view_derived_from_selection (clickFarm initialMapState txPanhandle)
    ⟨[txPanhandle], by simp [windFarms], rfl⟩
  have h2 := h.2.1 txPanhandle (by simp [windFarms]) (by decide)
  exact ⟨h2.1, h2.2.1, h2.2.2.1⟩

/-- C3 counterexample: with a different farm (ia-corn) already selected,
toggling tx-panhandle twice ends with no selection, not with the pre-call
selection, so the double-toggle identity fails for arbitrary pre-states. -/
theorem toggle_twice_not_involutive_cx :
    iaCorn ∈ windFarms ∧ txPanhandle ∈ windFarms
    ∧ (clickFarm initialMapState iaCorn).selectedFarm = some "ia-corn"
    ∧ (clickFarm (clickFarm (clickFarm initialMapState iaCorn) txPanhandle) txPanhandle).selectedFarm = none
    ∧ some "ia-corn" ≠ (none : Option String) :=
  ⟨by simp [windFarms], by simp [windFarms], by decide, by decide, by decide⟩

/-- C3 (amended): for every farm L of the set and every state in which the
selection is either empty or L itself, toggling L twice returns
`selectedFarm` to its pre-call value; re-selecting the currently selected
id clears the selection; and from the unselected state the double toggle
restores the overview center and zoom. -/
theorem toggle_twice_restores (s : MapState) (L : WindFarm) (hL : L ∈ windFarms)
    (hsel : s.selectedFarm = none ∨ s.selectedFarm = some L.id) :
    (clickFarm (clickFarm s L) L).selectedFarm = s.selectedFarm
    ∧ (s.selectedFarm = some L.id → (clickFarm s L).selectedFarm = none)
    ∧ (s.selectedFarm = none →
        (clickFarm (clickFarm s L) L).mapCenter = overviewCenter
        ∧ (clickFarm (clickFarm s L) L).mapZoom = overviewZoom) := by
  rcases hsel with h | h
  · have h1 : (clickFarm s L).selectedFarm = some L.id := by
      simp [clickFarm, handleFarmClick, h]
    refine ⟨?_, ?_, ?_⟩
    · simp [clickFarm, handleFarmClick, h1, h]
    · intro hcontra
      rw [h] at hcontra
      exact absurd hcontra (by simp)
    · intro _
      constructor
      · simp [clickFarm, handleFarmClick, h, overviewCenter]
      · simp [clickFarm, handleFarmClick, h, overviewZoom]
  · have h1 : (clickFarm s L).selectedFarm = none := by
      simp [clickFarm, handleFarmClick, h]
    refine ⟨?_, fun _ => h1, ?_⟩
    · simp [clickFarm, handleFarmClick, h1, h]
    · intro hcontra
      rw [h] at hcontra
      exact absurd hcontra (by simp)

theorem toggle_twice_restores_witness :
    (clickFarm (clickFarm initialMapState txPanhandle) txPanhandle).selectedFarm
      = initialMapState.selectedFarm
    ∧ (clickFarm (clickFarm initialMapState txPanhandle) txPanhandle).mapCenter
      = overviewCenter
    ∧ (clickFarm (clickFarm initialMapState txPanhandle) txPanhandle).mapZoom
      = overviewZoom := by
  have h := toggle_twice_restores initialMapState txPanhandle
    (by simp [windFarms]) (Or.inl rfl)
  exact ⟨h.1, (h.2.2 rfl).1, (h.2.2 rfl).2⟩

/-- C5: clicking farm A and then a different farm B, from any state, leaves
B selected (override, not toggle-off), with the view centered on B at the
zoomed-in level. -/
theorem select_different_overrides (s : MapState) (A B : WindFarm)
    (hA : A ∈ windFarms) (hB : B ∈ windFarms) (hAB : A ≠ B) :
    (clickFarm (clickFarm s A) B).selectedFarm = some B.id
    ∧ (clickFarm (clickFarm s A) B).mapCenter = (B.lat, B.lng)
    ∧ (clickFarm (clickFarm s A) B).mapZoom = selectedZoom := by
  have hid : A.id ≠ B.id := fun h => hAB (windFarms_id_inj hA hB h)
  by_cases h : s.selectedFarm = some A.id
  · refine ⟨?_, ?_, ?_⟩ <;> simp [clickFarm, handleFarmClick, h, selectedZoom]
  · refine ⟨?_, ?_, ?_⟩ <;> simp [clickFarm, handleFarmClick, h, hid, selectedZoom]

theorem select_different_overrides_witness :
    (clickFarm (clickFarm initialMapState txPanhandle) iaCorn).selectedFarm
      = some iaCorn.id
    ∧ (clickFarm (clickFarm initialMapState txPanhandle) iaCorn).mapZoom
      = selectedZoom := by
  have h := select_different_overrides initialMapState txPanhandle iaCorn
    (by simp [windFarms]) (by simp [windFarms])
    (fun hcontra => absurd (congrArg WindFarm.id hcontra) (by decide))
  exact ⟨h.1, h.2.2⟩

/-- C7 counterexample: clicking with an id outside the location set is not
a no-op: from the initial state it changes `selectedFarm` from none to the
unknown id and the zoom from the overview level to the zoomed-in level. -/
theorem unknown_id_not_noop_cx :
    "zz-unknown" ∉ windFarms.map WindFarm.id
    ∧ initialMapState.selectedFarm = none
    ∧ initialMapState.mapZoom = overviewZoom
    ∧ (handleFarmClick initialMapState "zz-unknown" 0 0).selectedFarm = some "zz-unknown"
    ∧ (handleFarmClick initialMapState "zz-unknown" 0 0).mapZoom = selectedZoom :=
  ⟨by decide, rfl, rfl, by decide, by decide⟩

/-- C7 (amended): for an id outside the location set (and not currently
selected), the click handler raises no error but it is not a no-op: it
sets `selectedFarm` to the unknown id and recenters on the passed
coordinates at the zoomed-in level; no visible location data changes in
that every marker of the set keeps the default (non-emphasized) style. -/
theorem unknown_id_click (s : MapState) (farmId : String) (lat lng : ℚ)
    (hid : farmId ∉ windFarms.map WindFarm.id)
    (hsel : s.selectedFarm ≠ some farmId) :
    (handleFarmClick s farmId lat lng).selectedFarm = some farmId
    ∧ (handleFarmClick s farmId lat lng).mapCenter = (lat, lng)
    ∧ (handleFarmClick s farmId lat lng).mapZoom = selectedZoom
    ∧ ∀ f ∈ windFarms,
        markerIcon (handleFarmClick s farmId lat lng) f
          = createCustomIcon f.status false := by
  refine ⟨by simp [handleFarmClick, hsel], by simp [handleFarmClick, hsel],
    by simp [handleFarmClick, hsel, selectedZoom], ?_⟩
  intro f hf
  have hne : f.id ≠ farmId := fun hh => hid (hh ▸ List.mem_map_of_mem WindFarm.id hf)
  simp [markerIcon, handleFarmClick, hsel, createCustomIcon, Ne.symm hne]

theorem unknown_id_click_witness :
    (handleFarmClick initialMapState "zz-unknown" 0 0).selectedFarm = some "zz-unknown"
    ∧ (handleFarmClick initialMapState "zz-unknown" 0 0).mapZoom = selectedZoom
    ∧ markerIcon (handleFarmClick initialMapState "zz-unknown" 0 0) txPanhandle
        = createCustomIcon txPanhandle.status false := by
  have h := unknown_id_click initialMapState "zz-unknown" 0 0 (by decide) (by decide)
  exact ⟨h.1, h.2.2.1, h.2.2.2 txPanhandle (by simp [windFarms])⟩

/-! ## Conversation Controller theorems -/

theorem sendMessage_ok_eq (s : ChatState) (newId : String) (now : ℕ)
    (data : GenieResponse) (fallbackId : String)
    (h : ((jsTrim s.input).isEmpty || s.isLoading) = false) :
    sendMessage s newId now (Except.ok data) fallbackId =
      ({ messages := s.messages ++
            [{ mkUserMessage (jsTrim s.input) newId now with status := some MsgStatus.sent },
             mkAssistantMessage data fallbackId],
         input := "", isLoading := false,
         conversationId :=
           if strNullFalsy s.conversationId && !data.conversation_id.isEmpty then
             some data.conversation_id
           else s.conversationId,
         error := none, showSqlFor := s.showSqlFor },
       some { content := jsTrim s.input, conversation_id := s.conversationId }) := by
  simp [sendMessage, h, appendPending, resolveSuccess, mkUserMessage]

theorem sendMessage_err_eq (s : ChatState) (newId : String) (now : ℕ)
    (fallbackId : String)
    (h : ((jsTrim s.input).isEmpty || s.isLoading) = false) :
    sendMessage s newId now (Except.error ()) fallbackId =
      ({ messages := s.messages ++
            [{ mkUserMessage (jsTrim s.input) newId now with status := some MsgStatus.error }],
         input := "", isLoading := false,
         conversationId := s.conversationId,
         error := some sendFailureText, showSqlFor := s.showSqlFor },
       some { content := jsTrim s.input, conversation_id := s.conversationId }) := by
  simp [sendMessage, h, appendPending, resolveFailure, mkUserMessage]

/-- C1: a successful send with non-empty trimmed input while no request is
pending grows the message list by exactly two entries: the just-sent user
message with its status updated to sent, followed by the assistant message
built from the response; the returned conversation id is adopted when none
was set (for a response carrying a real, non-empty id); and the pending
flag ends false. -/
theorem sendMessage_success_appends_two (s : ChatState) (newId : String) (now : ℕ)
    (data : GenieResponse) (fallbackId : String)
    (htext : (jsTrim s.input).isEmpty = false) (hpending : s.isLoading = false) :
    ((sendMessage s newId now (Except.ok data) fallbackId).1).messages =
      s.messages ++
        [{ mkUserMessage (jsTrim s.input) newId now with status := some MsgStatus.sent },
         mkAssistantMessage data fallbackId]
    ∧ ((sendMessage s newId now (Except.ok data) fallbackId).1).messages.length =
      s.messages.length + 2
    ∧ (s.conversationId = none → data.conversation_id.isEmpty = false →
        ((sendMessage s newId now (Except.ok data) fallbackId).1).conversationId =
          some data.conversation_id)
    ∧ ((sendMessage s newId now (Except.ok data) fallbackId).1).isLoading = false := by
  have h : ((jsTrim s.input).isEmpty || s.isLoading) = false := by
    rw [htext, hpending]; rfl
  rw [sendMessage_ok_eq s newId now data fallbackId h]
  refine ⟨rfl, by simp, ?_, rfl⟩
  intro hc hcid
  simp [hc, hcid, strNullFalsy]

def sampleState : ChatState :=
  { messages := [greetingMessage 0], input := "How many turbines?",
    isLoading := false, conversationId := none, error := none, showSqlFor := ∅ }

def sampleResponse : GenieResponse :=
  { conversation_id := "c1", message_id := "m1", content := "You have 100 turbines.",
    timestamp := 5, sql_query := some "SELECT COUNT(1) FROM turbines",
    query_results := none }

theorem sendMessage_success_appends_two_witness :
    (jsTrim sampleState.input).isEmpty = false
    ∧ sampleState.isLoading = false
    ∧ ((sendMessage sampleState "2" 1 (Except.ok sampleResponse) "fb").1).messages.length
      = sampleState.messages.length + 2
    ∧ ((sendMessage sampleState "2" 1 (Except.ok sampleResponse) "fb").1).conversationId
      = some "c1"
    ∧ ((sendMessage sampleState "2" 1 (Except.ok sampleResponse) "fb").1).isLoading = false := by
  have h := sendMessage_success_appends_two sampleState "2" 1 sampleResponse "fb"
    (by decide) rfl
  exact ⟨by decide, rfl, h.2.1, h.2.2.1 rfl (by decide), h.2.2.2⟩

/-- C2: a failed send (transport error or non-ok response) with non-empty
trimmed input while no request is pending grows the message list by exactly
one entry — the just-sent user message with its status updated to error, no
assistant message — sets the error banner to the fixed non-empty failure
text, and ends with the pending flag false. -/
theorem sendMessage_failure_appends_one (s : ChatState) (newId : String) (now : ℕ)
    (fallbackId : String)
    (htext : (jsTrim s.input).isEmpty = false) (hpending : s.isLoading = false) :
    ((sendMessage s newId now (Except.error ()) fallbackId).1).messages =
      s.messages ++
        [{ mkUserMessage (jsTrim s.input) newId now with status := some MsgStatus.error }]
    ∧ ((sendMessage s newId now (Except.error ()) fallbackId).1).messages.length =
      s.messages.length + 1
    ∧ ((sendMessage s newId now (Except.error ()) fallbackId).1).error =
      some sendFailureText
    ∧ sendFailureText.isEmpty = false
    ∧ ((sendMessage s newId now (Except.error ()) fallbackId).1).isLoading = false := by
  have h : ((jsTrim s.input).isEmpty || s.isLoading) = false := by
    rw [htext, hpending]; rfl
  rw [sendMessage_err_eq s newId now fallbackId h]
  exact ⟨rfl, by simp, rfl, by decide, rfl⟩

theorem sendMessage_failure_appends_one_witness :
    (jsTrim sampleState.input).isEmpty = false
    ∧ sampleState.isLoading = false
    ∧ ((sendMessage sampleState "2" 1 (Except.error ()) "fb").1).messages.length
      = sampleState.messages.length + 1
    ∧ ((sendMessage sampleState "2" 1 (Except.error ()) "fb").1).error
      = some sendFailureText
    ∧ ((sendMessage sampleState "2" 1 (Except.error ()) "fb").1).isLoading = false := by
  have h := sendMessage_failure_appends_one sampleState "2" 1 "fb" (by decide) rfl
  exact ⟨by decide, rfl, h.2.1, h.2.2.1, h.2.2.2.2⟩

/-- C6: sendMessage is a complete no-op — state unchanged and no outbound
request issued — whenever the trimmed input is empty or a request is
already pending; in particular a request is only ever issued when none is
outstanding. -/
theorem sendMessage_guard_noop (s : ChatState) (newId : String) (now : ℕ)
    (outcome : Except Unit GenieResponse) (fallbackId : String)
    (h : (jsTrim s.input).isEmpty = true ∨ s.isLoading = true) :
    sendMessage s newId now outcome fallbackId = (s, none) := by
  have hb : ((jsTrim s.input).isEmpty || s.isLoading) = true := by
    rcases h with h | h <;> simp [h]
  simp [sendMessage, hb]

theorem sendMessage_guard_noop_witness :
    sendMessage { sampleState with input := "   " } "9" 9 (Except.error ()) "fb"
      = ({ sampleState with input := "   " }, none)
    ∧ sendMessage { sampleState with isLoading := true } "9" 9 (Except.ok sampleResponse) "fb"
      = ({ sampleState with isLoading := true }, none) :=
  ⟨sendMessage_guard_noop _ "9" 9 (Except.error ()) "fb" (Or.inl (by decide)),
   sendMessage_guard_noop _ "9" 9 (Except.ok sampleResponse) "fb" (Or.inr rfl)⟩

theorem applyEvent_messages_append (s : ChatState) (e : ChatEvent) :
    ∃ t : List Message, (applyEvent s e).messages = s.messages ++ t := by
  cases e with
  | toggleSql messageId => exact ⟨[], by simp [applyEvent]⟩
  | setInput text => exact ⟨[], by simp [applyEvent]⟩
  | send newId now outcome fallbackId =>
      rcases Bool.eq_false_or_eq_true ((jsTrim s.input).isEmpty || s.isLoading) with hg | hg
      · exact ⟨[], by simp [applyEvent, sendMessage, hg]⟩
      · cases outcome with
        | ok data =>
            refine ⟨[{ mkUserMessage (jsTrim s.input) newId now with status := some MsgStatus.sent },
              mkAssistantMessage data fallbackId], ?_⟩
            show ((sendMessage s newId now (Except.ok data) fallbackId).1).messages = _
            rw [sendMessage_ok_eq s newId now data fallbackId hg]
        | error u =>
            cases u
            refine ⟨[{ mkUserMessage (jsTrim s.input) newId now with status := some MsgStatus.error }], ?_⟩
            show ((sendMessage s newId now (Except.error ()) fallbackId).1).messages = _
            rw [sendMessage_err_eq s newId now fallbackId hg]

theorem foldl_messages_append :
    ∀ (es : List ChatEvent) (s : ChatState),
      ∃ t : List Message, (List.foldl applyEvent s es).messages = s.messages ++ t
  | [], s => ⟨[], by simp⟩
  | e :: rest, s => by
      obtain ⟨t1, h1⟩ := applyEvent_messages_append s e
      obtain ⟨t2, h2⟩ := foldl_messages_append rest (applyEvent s e)
      exact ⟨t1 ++ t2, by rw [List.foldl_cons, h2, h1, List.append_assoc]⟩

/-- Allowed micro-transition of the message list between two successive
rendered states: leave it unchanged, append a fresh user message with
status sending, or resolve the final sending message by replacing only its
status with sent (followed by appended assistant messages) or error. -/
def messagesStep (m mNext : List Message) : Prop :=
  mNext = m
  ∨ (∃ u : Message, u.sender = Sender.user ∧ u.status = some MsgStatus.sending
      ∧ mNext = m ++ [u])
  ∨ (∃ (p rest : List Message) (u : Message),
      m = p ++ [u] ∧ u.status = some MsgStatus.sending
      ∧ (∀ a ∈ rest, a.sender = Sender.assistant)
      ∧ (mNext = p ++ ({ u with status := some MsgStatus.sent } :: rest)
         ∨ mNext = p ++ [{ u with status := some MsgStatus.error }]))

theorem eventStates_chain (s : ChatState) (e : ChatEvent) :
    List.Chain' messagesStep (s.messages :: (eventStates s e).map ChatState.messages) := by
  cases e with
  | toggleSql messageId =>
      exact List.chain'_cons.mpr ⟨Or.inl rfl, List.chain'_singleton _⟩
  | setInput text =>
      exact List.chain'_cons.mpr ⟨Or.inl rfl, List.chain'_singleton _⟩
  | send newId now outcome fallbackId =>
      rcases Bool.eq_false_or_eq_true ((jsTrim s.input).isEmpty || s.isLoading) with hg | hg
      · have hstates : eventStates s (ChatEvent.send newId now outcome fallbackId) = [s] := by
          simp [eventStates, hg]
        rw [hstates]
        exact List.chain'_cons.mpr ⟨Or.inl rfl, List.chain'_singleton _⟩
      · cases outcome with
        | ok data =>
            have hstates : eventStates s (ChatEvent.send newId now (Except.ok data) fallbackId) =
                [appendPending s (mkUserMessage (jsTrim s.input) newId now),
                 resolveSuccess (appendPending s (mkUserMessage (jsTrim s.input) newId now))
                   (mkUserMessage (jsTrim s.input) newId now) data fallbackId] := by
              simp [eventStates, hg]
            rw [hstates]
            refine List.chain'_cons.mpr ⟨?_, List.chain'_cons.mpr ⟨?_, List.chain'_singleton _⟩⟩
            · exact Or.inr (Or.inl ⟨mkUserMessage (jsTrim s.input) newId now, rfl, rfl, rfl⟩)
            · refine Or.inr (Or.inr ⟨s.messages, [mkAssistantMessage data fallbackId],
                mkUserMessage (jsTrim s.input) newId now, rfl, rfl, ?_, Or.inl ?_⟩)
              · intro a ha
                rw [List.mem_singleton] at ha
                rw [ha]
                rfl
              · show (appendPending s (mkUserMessage (jsTrim s.input) newId now)).messages.dropLast ++ _ = _
                rw [show (appendPending s (mkUserMessage (jsTrim s.input) newId now)).messages
                    = s.messages ++ [mkUserMessage (jsTrim s.input) newId now] from rfl,
                  List.dropLast_concat]
        | error u =>
            cases u
            have hstates : eventStates s (ChatEvent.send newId now (Except.error ()) fallbackId) =
                [appendPending s (mkUserMessage (jsTrim s.input) newId now),
                 resolveFailure (appendPending s (mkUserMessage (jsTrim s.input) newId now))
                   (mkUserMessage (jsTrim s.input) newId now)] := by
              simp [eventStates, hg]
            rw [hstates]
            refine List.chain'_cons.mpr ⟨?_, List.chain'_cons.mpr ⟨?_, List.chain'_singleton _⟩⟩
            · exact Or.inr (Or.inl ⟨mkUserMessage (jsTrim s.input) newId now, rfl, rfl, rfl⟩)
            · refine Or.inr (Or.inr ⟨s.messages, [],
                mkUserMessage (jsTrim s.input) newId now, rfl, rfl, by simp, Or.inr ?_⟩)
              show (appendPending s (mkUserMessage (jsTrim s.input) newId now)).messages.dropLast ++ _ = _
              rw [show (appendPending s (mkUserMessage (jsTrim s.input) newId now)).messages
                  = s.messages ++ [mkUserMessage (jsTrim s.input) newId now] from rfl,
                List.dropLast_concat]

/-- C8: the message list is append-only across every sequence of
operations — after any event sequence the earlier list is an unchanged
initial segment of the later one, so no message is removed, reordered or
edited once settled — and within a single operation the successive rendered
lists are related by messagesStep: the only in-place modification ever made
is replacing the status of the final, just-appended sending user message
with sent (success) or error (failure). -/
theorem messages_append_only (s : ChatState) (es : List ChatEvent) (e : ChatEvent) :
    (∃ t : List Message, (List.foldl applyEvent s es).messages = s.messages ++ t)
    ∧ List.Chain' messagesStep (s.messages :: (eventStates s e).map ChatState.messages) :=
  ⟨foldl_messages_append es s, eventStates_chain s e⟩

/-- C9: toggleSqlVisibility flips the membership of the given message id in
the reveal-set, leaves the membership of every other id unchanged, and
applied twice with the same id it restores the reveal-set exactly. -/
theorem toggleSqlVisibility_flips (prev : Finset String) (messageId : String) :
    (messageId ∈ toggleSqlVisibility prev messageId ↔ messageId ∉ prev)
    ∧ (∀ x : String, x ≠ messageId →
        (x ∈ toggleSqlVisibility prev messageId ↔ x ∈ prev))
    ∧ toggleSqlVisibility (toggleSqlVisibility prev messageId) messageId = prev := by
  by_cases h : messageId ∈ prev
  · refine ⟨by simp [toggleSqlVisibility, h], ?_, ?_⟩
    · intro x hx
      simp [toggleSqlVisibility, h, hx]
    · have h2 : messageId ∉ prev.erase messageId := by simp
      simp [toggleSqlVisibility, h, h2, Finset.insert_erase h]
  · refine ⟨by simp [toggleSqlVisibility, h], ?_, ?_⟩
    · intro x hx
      simp [toggleSqlVisibility, h, hx]
    · have h2 : messageId ∈ insert messageId prev := by simp
      simp [toggleSqlVisibility, h, h2, Finset.erase_insert h]

theorem toggleSqlVisibility_flips_witness :
    ("m1" ∈ toggleSqlVisibility (∅ : Finset String) "m1" ↔ "m1" ∉ (∅ : Finset String))
    ∧ ("m2" ∈ toggleSqlVisibility (∅ : Finset String) "m1" ↔ "m2" ∈ (∅ : Finset String))
    ∧ toggleSqlVisibility (toggleSqlVisibility (∅ : Finset String) "m1") "m1" = ∅ :=
  ⟨(toggleSqlVisibility_flips ∅ "m1").1,
   (toggleSqlVisibility_flips ∅ "m1").2.1 "m2" (by decide),
   (toggleSqlVisibility_flips ∅ "m1").2.2⟩

theorem head_append_of_head (g : Message) (m t : List Message)
    (h : m.head? = some g) : (m ++ t).head? = some g := by
  cases m with
  | nil => simp at h
  | cons a l => simpa using h

theorem applyEvent_head (g : Message) (s : ChatState) (e : ChatEvent)
    (h : s.messages.head? = some g) :
    (applyEvent s e).messages.head? = some g := by
  obtain ⟨t1, h1⟩ := applyEvent_messages_append s e
  rw [h1]
  exact head_append_of_head g s.messages t1 h

theorem eventStates_head (g : Message) (s : ChatState) (e : ChatEvent)
    (h : s.messages.head? = some g) :
    ∀ st ∈ eventStates s e, st.messages.head? = some g := by
  intro st hst
  cases e with
  | toggleSql messageId =>
      rw [show eventStates s (ChatEvent.toggleSql messageId)
          = [applyEvent s (ChatEvent.toggleSql messageId)] from rfl,
        List.mem_singleton] at hst
      rw [hst]
      exact applyEvent_head g s _ h
  | setInput text =>
      rw [show eventStates s (ChatEvent.setInput text)
          = [applyEvent s (ChatEvent.setInput text)] from rfl,
        List.mem_singleton] at hst
      rw [hst]
      exact applyEvent_head g s _ h
  | send newId now outcome fallbackId =>
      rcases Bool.eq_false_or_eq_true ((jsTrim s.input).isEmpty || s.isLoading) with hg | hg
      · have hs : eventStates s (ChatEvent.send newId now outcome fallbackId) = [s] := by
          simp [eventStates, hg]
        rw [hs, List.mem_singleton] at hst
        rw [hst]
        exact h
      · cases outcome with
        | ok data =>
            have hs : eventStates s (ChatEvent.send newId now (Except.ok data) fallbackId) =
                [appendPending s (mkUserMessage (jsTrim s.input) newId now),
                 resolveSuccess (appendPending s (mkUserMessage (jsTrim s.input) newId now))
                   (mkUserMessage (jsTrim s.input) newId now) data fallbackId] := by
              simp [eventStates, hg]
            rw [hs, List.mem_cons, List.mem_singleton] at hst
            rcases hst with rfl | rfl
            · exact head_append_of_head g s.messages _ h
            · have happ : (applyEvent s (ChatEvent.send newId now (Except.ok data) fallbackId)).messages.head? = some g :=
                applyEvent_head g s _ h
              have heq : applyEvent s (ChatEvent.send newId now (Except.ok data) fallbackId)
                  = resolveSuccess (appendPending s (mkUserMessage (jsTrim s.input) newId now))
                    (mkUserMessage (jsTrim s.input) newId now) data fallbackId := by
                simp [applyEvent, sendMessage, hg]
              rw [heq] at happ
              exact happ
        | error u =>
            cases u
            have hs : eventStates s (ChatEvent.send newId now (Except.error ()) fallbackId) =
                [appendPending s (mkUserMessage (jsTrim s.input) newId now),
                 resolveFailure (appendPending s (mkUserMessage (jsTrim s.input) newId now))
                   (mkUserMessage (jsTrim s.input) newId now)] := by
              simp [eventStates, hg]
            rw [hs, List.mem_cons, List.mem_singleton] at hst
            rcases hst with rfl | rfl
            · exact head_append_of_head g s.messages _ h
            · have happ : (applyEvent s (ChatEvent.send newId now (Except.error ()) fallbackId)).messages.head? = some g :=
                applyEvent_head g s _ h
              have heq : applyEvent s (ChatEvent.send newId now (Except.error ()) fallbackId)
                  = resolveFailure (appendPending s (mkUserMessage (jsTrim s.input) newId now))
                    (mkUserMessage (jsTrim s.input) newId now) := by
                simp [applyEvent, sendMessage, hg]
              rw [heq] at happ
              exact happ

theorem traceFrom_head (g : Message) :
    ∀ (es : List ChatEvent) (s : ChatState), s.messages.head? = some g →
      ∀ st ∈ traceFrom s es, st.messages.head? = some g
  | [], s, h, st, hst => by
      rw [show traceFrom s [] = [s] from rfl, List.mem_singleton] at hst
      rw [hst]
      exact h
  | e :: rest, s, h, st, hst => by
      rw [show traceFrom s (e :: rest)
          = s :: (eventStates s e ++ traceFrom (applyEvent s e) rest) from rfl,
        List.mem_cons, List.mem_append] at hst
      rcases hst with rfl | hst | hst
      · exact h
      · exact eventStates_head g s e h st hst
      · exact traceFrom_head g rest (applyEvent s e) (applyEvent_head g s e h) st hst

/-- C10: in every rendered state reachable from the seeded initial state by
any sequence of operations (sends with any outcome, reveal toggles, input
edits) the message list is non-empty and its first element is still the
seeded assistant greeting: the post-request updates replace only the final,
just-appended element. -/
theorem greeting_always_first (t0 : ℕ) (es : List ChatEvent) (st : ChatState)
    (hst : st ∈ traceFrom (initialChatState t0) es) :
    st.messages ≠ [] ∧ st.messages.head? = some (greetingMessage t0) := by
  have h := traceFrom_head (greetingMessage t0) es (initialChatState t0) rfl st hst
  refine ⟨?_, h⟩
  intro hnil
  rw [hnil] at h
  simp at h

theorem greeting_always_first_witness :
    (initialChatState 0).messages ≠ []
    ∧ (initialChatState 0).messages.head? = some (greetingMessage 0) :=
  greeting_always_first 0 [] (initialChatState 0) (by simp [traceFrom])
